import Mathlib

/-!
Shallow embedding of `src/app.py` (FastAPI Whisper transcription service).

External collaborators (torchaudio, librosa, the Whisper processor and model,
the filesystem and the clock) are modelled as environment records whose fields
give the outcome of each call: `Except String α` for a call that may raise
(the `String` is the Python exception's message, `str(e)`), plain functions
for calls that always succeed.  Process state touched by the handlers
(Prometheus counters and histogram observations, the temporary file on disk)
is passed and returned explicitly.
-/

namespace FastAPIWhisper

/-! ### Python string helpers used by the handler -/

/-- Python whitespace characters stripped by `str.strip()`. -/
def isPyWhitespace (c : Char) : Bool :=
  c = ' ' || c = '\t' || c = '\n' || c = '\r' || c = '\x0b' || c = '\x0c'

/-- `str.strip()`: remove leading and trailing whitespace. -/
def pyStrip (s : String) : String :=
  String.mk (((s.data.dropWhile isPyWhitespace).reverse.dropWhile isPyWhitespace).reverse)

/-- Index of the last occurrence of `c` in `cs`, or `-1` when absent
(Python's `str.rfind`). -/
def rfindIdx (cs : List Char) (c : Char) : Int :=
  match (cs.reverse.findIdx? (· = c)) with
  | some j => (cs.length : Int) - 1 - (j : Int)
  | none => -1

/-- The extension component of Python's `os.path.splitext` on POSIX
(`sep = '/'`, no `altsep`): the part of `p` from its last dot on, provided
that dot lies after the last path separator and the basename does not consist
of leading dots only (`.bashrc` has no extension). -/
def pySplitextExt (p : String) : String :=
  let cs := p.data
  let sepIndex := rfindIdx cs '/'
  let dotIndex := rfindIdx cs '.'
  if dotIndex > sepIndex then
    let hasStem := cs.enum.any fun ic =>
      decide (sepIndex < (ic.1 : Int)) && decide ((ic.1 : Int) < dotIndex) && (ic.2 != '.')
    if hasStem then String.mk (cs.drop dotIndex.toNat) else ""
  else ""

/-- app.py line 104:
`file_extension = os.path.splitext(audio_file.filename or "audio.wav")[1] or ".wav"`.
`audio_file.filename` is `none` when absent; Python's `or` also replaces an
empty filename by `"audio.wav"`, and an empty extension by `".wav"`. -/
def fileExtension (filename : Option String) : String :=
  let name := match filename with
    | none => "audio.wav"
    | some f => if f = "" then "audio.wav" else f
  let ext := pySplitextExt name
  if ext = "" then ".wav" else ext

/-- Python `round(x)`: round to the nearest integer, ties to the even
integer (modelled exactly on rationals; the source rounds IEEE doubles).
`r` is the remainder of the numerator over the denominator, so `2*r` against
the denominator compares the fractional part against one half. -/
def roundHalfEven (q : ℚ) : ℤ :=
  let d := (q.den : ℤ)
  let f := Int.fdiv q.num d
  let r := q.num - f * d
  if 2 * r < d then f
  else if d < 2 * r then f + 1
  else if f % 2 = 0 then f else f + 1

/-- `round(x, 2)` from the metrics payload, app.py lines 168-172. -/
def round2 (q : ℚ) : ℚ := (roundHalfEven (q * 100) : ℚ) / 100

/-! ### Audio Loader (`load_audio_file`, app.py lines 70-86) -/

/-- Outcomes of the external audio libraries for one input file.
`torchaudio_load` returns the decoded channels (a rectangular list of
channels, each a list of samples) and the source sample rate, or raises.
`resample` is `torchaudio.transforms.Resample(sample_rate, 16000)` applied to
one channel.  `librosa_load` is `librosa.load(path, sr=16000, mono=True)`,
which may also raise. -/
structure AudioEnv where
  torchaudio_load : Except String (List (List ℚ) × Nat)
  resample : Nat → List ℚ → List ℚ
  librosa_load : Except String (List ℚ)

/-- `torch.mean(waveform, dim=0, keepdim=True)` on a rectangular channel
list: the pointwise average of the channels (one output channel). -/
def meanChannels (chans : List (List ℚ)) : List ℚ :=
  match chans with
  | [] => []
  | c0 :: _ =>
    (List.range c0.length).map fun i =>
      ((chans.map fun c => c.getD i 0).sum) / (chans.length : ℚ)

/-- app.py lines 70-86: primary decode with torchaudio (mono-average when
multi-channel, resample when the rate is not 16000), falling back to librosa
on any exception; a librosa failure propagates. -/
def load_audio_file (env : AudioEnv) : Except String (List ℚ) :=
  match env.torchaudio_load with
  | .ok cs =>
    let waveform := if cs.1.length > 1 then [meanChannels cs.1] else cs.1
    let waveform := if cs.2 ≠ 16000 then waveform.map (env.resample cs.2) else waveform
    .ok (waveform.headD [])
  | .error _ => env.librosa_load

/-! ### Model Host (`load_whisper_model`, app.py lines 40-65) -/

/-- The loaded model: the device its weights live on and their dtype. -/
structure ModelHandle where
  device : String
  dtype : String
deriving Repr, DecidableEq

/-- Outcomes of the external calls made by `load_whisper_model`:
`WhisperProcessor.from_pretrained`, `WhisperForConditionalGeneration.from_pretrained`
and `model.to(device)` may each raise; `torch.cuda.is_available()` is a flag. -/
structure LoadEnv where
  cuda_available : Bool
  fetch_processor : Except String Unit
  fetch_model : Except String Unit
  move_to_device : Except String Unit

/-- The state load_whisper_model leaves behind: its return value, the value
the `MODEL_LOADED` gauge was set to, and the globals `whisper_model` and
`processor` (the model handle records the device the weights ended on). -/
structure LoadOutcome where
  ret : Bool
  gauge : Nat
  whisper_model : Option ModelHandle
  processor_set : Bool
deriving Repr, DecidableEq

/-- app.py lines 40-65.  The whole body is wrapped in `try/except Exception`:
the processor is fetched first (assigning the global), then the model with
`float16` on CUDA and `float32` otherwise, then the weights are moved to
`"cuda"` when available, else `"cpu"`; on success the gauge is set to 1 and
`True` returned, on any exception the gauge is set to 0 and `False` returned.
A failure after a global was assigned leaves that global assigned. -/
def load_whisper_model (env : LoadEnv) : LoadOutcome :=
  let dtype := if env.cuda_available then "float16" else "float32"
  match env.fetch_processor with
  | .error _ => { ret := false, gauge := 0, whisper_model := none, processor_set := false }
  | .ok _ =>
    match env.fetch_model with
    | .error _ => { ret := false, gauge := 0, whisper_model := none, processor_set := true }
    | .ok _ =>
      let device := if env.cuda_available then "cuda" else "cpu"
      match env.move_to_device with
      | .error _ =>
        { ret := false, gauge := 0
          whisper_model := some { device := "cpu", dtype := dtype }, processor_set := true }
      | .ok _ =>
        { ret := true, gauge := 1
          whisper_model := some { device := device, dtype := dtype }, processor_set := true }

/-! ### Transcription Handler (`transcribe`, app.py lines 88-188) -/

/-- A JSON value as returned by the handler (only the shapes the handler
builds: strings, numbers, nested objects). -/
inductive JVal where
  | s (v : String)
  | num (v : ℚ)
  | obj (fields : List (String × JVal))

/-- The response body: a JSON object, its fields in insertion order. -/
abbrev Resp := List (String × JVal)

/-- `r` has a field named `k`. -/
def hasFieldB (r : Resp) (k : String) : Bool :=
  r.any fun kv => kv.1 = k

/-- The Prometheus state the handler touches: the two counters and the five
duration histograms (a histogram is modelled by its list of observed
values, `Histogram.observe` appends). -/
structure Metrics where
  requests : Nat
  errors : Nat
  audioObs : List ℚ
  procObs : List ℚ
  inferObs : List ℚ
  decodeObs : List ℚ
  totalObs : List ℚ

/-- A tensor produced by the processor: opaque payload plus the device it
lives on (`v.to(device)` retags the device). -/
structure Tensor where
  payload : Int
  device : String
deriving Repr, DecidableEq

/-- The processor's output `inputs`: a dict of named tensors. -/
abbrev Inputs := List (String × Tensor)

/-- One request's environment: the module globals the handler reads, the
upload, and the outcome of every external call it makes.  `clock n` is the
value returned by the n-th `time.time()` call on the all-successful path
(0 = `start_time`, 1/2 bracket the audio load, 3/4 the processing, 5/6 the
generation, 7/8 the token decode, 9 = the final total).  `unlink_res k` is
the outcome of the k-th `os.unlink` call (`none` = success, `some msg` =
raised with message `msg`). -/
structure ReqEnv where
  model_loaded : Bool
  whisper_model : Option ModelHandle
  processor_set : Bool
  filename : Option String
  temp_name : String
  read_upload : Except String (List Nat)
  write_temp : List Nat → Except String Unit
  audio : AudioEnv
  run_processor : List ℚ → Except String Inputs
  generate : Inputs → Except String (List Int)
  batch_decode : List Int → Except String (List String)
  unlink_res : Nat → Option String
  clock : Nat → ℚ

/-- What one call to the handler produces: the JSON response, the final
metric state, and whether this request's temporary file is still on disk
when the handler returns. -/
structure ReqResult where
  resp : Resp
  metrics : Metrics
  tempFileExists : Bool

/-- app.py line 130: `device = next(whisper_model.parameters()).device`
(the handler only reaches this line when the model is loaded; the `"cpu"`
default is unreachable there). -/
def modelDevice (env : ReqEnv) : String :=
  (env.whisper_model.map ModelHandle.device).getD "cpu"

/-- app.py line 131: `inputs = {k: v.to(device) for k, v in inputs.items()}`. -/
def moveInputs (device : String) (inputs : Inputs) : Inputs :=
  inputs.map fun kv => (kv.1, { kv.2 with device := device })

/-- app.py lines 177-188, the `except Exception` block: increment the error
counter, then `if temp_file_path:` attempt `os.unlink` inside a nested
`try/except: pass` (a deletion failure leaves the file), and return
`{"error": f"Transcription failed: {str(e)}"}`.  `attempt` numbers the
unlink call (1 when the success path already consumed unlink call 0). -/
def exceptBlock (env : ReqEnv) (m : Metrics) (temp_file_path : Option String)
    (fileExists : Bool) (attempt : Nat) (msg : String) : ReqResult :=
  let fileExists' :=
    match temp_file_path with
    | some _ =>
      match env.unlink_res attempt with
      | none => false
      | some _ => fileExists
    | none => fileExists
  { resp := [("error", JVal.s ("Transcription failed: " ++ msg))]
    metrics := { m with errors := m.errors + 1 }
    tempFileExists := fileExists' }

/-- app.py lines 88-188.  Readiness check, request counter, temporary file,
then the five timed stages, each external call able to raise into the
`except` block; on the success path the temp file is unlinked (line 163,
still inside the `try`) before the payload of line 165 is returned.
`tempfile.NamedTemporaryFile(delete=False)` creates the file on disk before
the upload is read, but `temp_file_path` is only assigned after the write
completes, so a read or write failure reaches the `except` block with
`temp_file_path = None`. -/
def transcribe (env : ReqEnv) (m0 : Metrics) : ReqResult :=
  if !env.model_loaded || env.whisper_model.isNone || !env.processor_set then
    { resp := [("error", JVal.s "Whisper model not loaded")]
      metrics := m0, tempFileExists := false }
  else
    let m := { m0 with requests := m0.requests + 1 }
    let _file_extension := fileExtension env.filename
    match env.read_upload with
    | .error e => exceptBlock env m none true 0 e
    | .ok content =>
    match env.write_temp content with
    | .error e => exceptBlock env m none true 0 e
    | .ok _ =>
    let temp_file_path := some env.temp_name
    match load_audio_file env.audio with
    | .error e => exceptBlock env m temp_file_path true 0 e
    | .ok audio =>
    let audio_load_time := env.clock 2 - env.clock 1
    let m := { m with audioObs := m.audioObs ++ [audio_load_time] }
    match env.run_processor audio with
    | .error e => exceptBlock env m temp_file_path true 0 e
    | .ok inputs =>
    let process_time := env.clock 4 - env.clock 3
    let m := { m with procObs := m.procObs ++ [process_time] }
    let device := modelDevice env
    match env.generate (moveInputs device inputs) with
    | .error e => exceptBlock env m temp_file_path true 0 e
    | .ok predicted_ids =>
    let inference_time := env.clock 6 - env.clock 5
    let m := { m with inferObs := m.inferObs ++ [inference_time] }
    match env.batch_decode predicted_ids with
    | .error e => exceptBlock env m temp_file_path true 0 e
    | .ok decoded =>
    match decoded.head? with
    | none => exceptBlock env m temp_file_path true 0 "list index out of range"
    | some transcription =>
    let decode_time := env.clock 8 - env.clock 7
    let m := { m with decodeObs := m.decodeObs ++ [decode_time] }
    let total_time := env.clock 9 - env.clock 0
    let m := { m with totalObs := m.totalObs ++ [total_time] }
    match env.unlink_res 0 with
    | some e => exceptBlock env m temp_file_path true 1 e
    | none =>
      { resp := [("transcription", JVal.s (pyStrip transcription)),
                 ("metrics", JVal.obj [
                   ("total_time", JVal.num (round2 total_time)),
                   ("audio_load_time", JVal.num (round2 audio_load_time)),
                   ("processing_time", JVal.num (round2 process_time)),
                   ("inference_time", JVal.num (round2 inference_time)),
                   ("decode_time", JVal.num (round2 decode_time)),
                   ("device", JVal.s device)])]
        metrics := m, tempFileExists := false }

/-- The message of the first exception raised in steps 3-7 of the handler
(persist upload, audio load, feature processing, generation, token decode),
`none` when every step succeeds.  Mirrors the order of `transcribe`;
`"list index out of range"` is the `IndexError` of `batch_decode(...)[0]`
on an empty batch. -/
def firstFailure (env : ReqEnv) : Option String :=
  match env.read_upload with
  | .error e => some e
  | .ok content =>
  match env.write_temp content with
  | .error e => some e
  | .ok _ =>
  match load_audio_file env.audio with
  | .error e => some e
  | .ok audio =>
  match env.run_processor audio with
  | .error e => some e
  | .ok inputs =>
  match env.generate (moveInputs (modelDevice env) inputs) with
  | .error e => some e
  | .ok predicted_ids =>
  match env.batch_decode predicted_ids with
  | .error e => some e
  | .ok decoded =>
  match decoded.head? with
  | none => some "list index out of range"
  | some _ => none

/-! ### Concrete instances used to exercise the model -/

/-- All-zero metric state (fresh process). -/
def zeroMetrics : Metrics :=
  { requests := 0, errors := 0, audioObs := [], procObs := [], inferObs := [],
    decodeObs := [], totalObs := [] }

/-- An audio environment whose primary decode succeeds with one mono
channel already at 16 kHz. -/
def okAudio : AudioEnv :=
  { torchaudio_load := .ok ([[1, 2, 3]], 16000)
    resample := fun _ w => w
    librosa_load := .ok [7] }

/-- A request environment in which every external call succeeds. -/
def baseEnv : ReqEnv :=
  { model_loaded := true
    whisper_model := some { device := "cuda", dtype := "float16" }
    processor_set := true
    filename := some "clip.mp3"
    temp_name := "/tmp/tmpabc.mp3"
    read_upload := .ok [1, 2, 3]
    write_temp := fun _ => .ok ()
    audio := okAudio
    run_processor := fun _ => .ok [("input_features", { payload := 9, device := "cpu" })]
    generate := fun _ => .ok [42, 43]
    batch_decode := fun _ => .ok [" hello world "]
    unlink_res := fun _ => none
    clock := fun n => (n : ℚ) }

/-- `baseEnv` with the upload read raising (the byte stream fails). -/
def envReadFail : ReqEnv := { baseEnv with read_upload := .error "connection reset" }

/-- `baseEnv` with both audio decoders raising. -/
def envAudioFail : ReqEnv :=
  { baseEnv with audio :=
      { torchaudio_load := .error "unknown container"
        resample := fun _ w => w
        librosa_load := .error "librosa cannot decode" } }

/-- `baseEnv` with the feature processor raising. -/
def envProcFail : ReqEnv := { baseEnv with run_processor := fun _ => .error "processor oom" }

/-- `baseEnv` with every `os.unlink` call raising. -/
def envUnlinkFail : ReqEnv := { baseEnv with unlink_res := fun _ => some "permission denied" }

/-- `baseEnv` with the model never loaded. -/
def envNotReady : ReqEnv := { baseEnv with model_loaded := false, whisper_model := none }

/-- A startup environment in which every external call of the model load
succeeds, on a machine with CUDA. -/
def loadEnvOk : LoadEnv :=
  { cuda_available := true, fetch_processor := .ok ()
    fetch_model := .ok (), move_to_device := .ok () }

/-! ### Helper lemmas about the handler's two exits -/

theorem exceptBlock_resp (env : ReqEnv) (m : Metrics) (p : Option String)
    (fe : Bool) (a : Nat) (msg : String) :
    (exceptBlock env m p fe a msg).resp =
      [("error", JVal.s ("Transcription failed: " ++ msg))] := rfl

theorem exceptBlock_metrics (env : ReqEnv) (m : Metrics) (p : Option String)
    (fe : Bool) (a : Nat) (msg : String) :
    (exceptBlock env m p fe a msg).metrics = { m with errors := m.errors + 1 } := rfl

/-- Master lemma for the failure paths: when the readiness check passes and
some step of 3-7 raises with message `e`, the handler answers with the
error payload for `e`, bumps the error and request counters once each, and
leaves the total-duration histogram untouched. -/
theorem transcribe_onFailure (env : ReqEnv) (m : Metrics) (e : String)
    (hready : (!env.model_loaded || env.whisper_model.isNone || !env.processor_set) = false)
    (hfail : firstFailure env = some e) :
    (transcribe env m).resp = [("error", JVal.s ("Transcription failed: " ++ e))]
    ∧ (transcribe env m).metrics.errors = m.errors + 1
    ∧ (transcribe env m).metrics.requests = m.requests + 1
    ∧ (transcribe env m).metrics.totalObs = m.totalObs := by
  unfold transcribe
  unfold firstFailure at hfail
  rw [hready]
  cases hr : env.read_upload with
  | error e1 =>
    rw [hr] at hfail
    obtain rfl : e1 = e := by simpa using hfail
    exact ⟨rfl, rfl, rfl, rfl⟩
  | ok content =>
  rw [hr] at hfail
  dsimp only at hfail ⊢
  cases hw : env.write_temp content with
  | error e2 =>
    rw [hw] at hfail
    obtain rfl : e2 = e := by simpa using hfail
    exact ⟨rfl, rfl, rfl, rfl⟩
  | ok u =>
  cases u
  rw [hw] at hfail
  dsimp only at hfail ⊢
  cases ha : load_audio_file env.audio with
  | error e3 =>
    rw [ha] at hfail
    obtain rfl : e3 = e := by simpa using hfail
    exact ⟨rfl, rfl, rfl, rfl⟩
  | ok audio =>
  rw [ha] at hfail
  dsimp only at hfail ⊢
  cases hp : env.run_processor audio with
  | error e4 =>
    rw [hp] at hfail
    obtain rfl : e4 = e := by simpa using hfail
    exact ⟨rfl, rfl, rfl, rfl⟩
  | ok inputs =>
  rw [hp] at hfail
  dsimp only at hfail ⊢
  cases hg : env.generate (moveInputs (modelDevice env) inputs) with
  | error e5 =>
    rw [hg] at hfail
    obtain rfl : e5 = e := by simpa using hfail
    exact ⟨rfl, rfl, rfl, rfl⟩
  | ok predicted_ids =>
  rw [hg] at hfail
  dsimp only at hfail ⊢
  cases hd : env.batch_decode predicted_ids with
  | error e6 =>
    rw [hd] at hfail
    obtain rfl : e6 = e := by simpa using hfail
    exact ⟨rfl, rfl, rfl, rfl⟩
  | ok decoded =>
  rw [hd] at hfail
  dsimp only at hfail ⊢
  cases decoded with
  | nil =>
    obtain rfl : "list index out of range" = e := by simpa using hfail
    exact ⟨rfl, rfl, rfl, rfl⟩
  | cons t rest =>
    exact absurd hfail (by simp)

/-- Master lemma for the path on which every step of 3-7 succeeds: the
outcome is decided by the success-path `os.unlink` (call 0).  When it
succeeds the handler returns the stripped transcription with the rounded
metrics payload; when it raises with message `u` the exception lands in the
outer handler, which answers with the error payload for `u`. -/
theorem transcribe_onSuccess (env : ReqEnv) (m : Metrics)
    (content : List Nat) (a : List ℚ) (inputs : Inputs) (ids : List Int)
    (t : String) (rest : List String)
    (hready : (!env.model_loaded || env.whisper_model.isNone || !env.processor_set) = false)
    (hr : env.read_upload = .ok content)
    (hw : env.write_temp content = .ok ())
    (ha : load_audio_file env.audio = .ok a)
    (hp : env.run_processor a = .ok inputs)
    (hg : env.generate (moveInputs (modelDevice env) inputs) = .ok ids)
    (hd : env.batch_decode ids = .ok (t :: rest)) :
    (env.unlink_res 0 = none →
      transcribe env m =
        { resp := [("transcription", JVal.s (pyStrip t)),
                   ("metrics", JVal.obj [
                     ("total_time", JVal.num (round2 (env.clock 9 - env.clock 0))),
                     ("audio_load_time", JVal.num (round2 (env.clock 2 - env.clock 1))),
                     ("processing_time", JVal.num (round2 (env.clock 4 - env.clock 3))),
                     ("inference_time", JVal.num (round2 (env.clock 6 - env.clock 5))),
                     ("decode_time", JVal.num (round2 (env.clock 8 - env.clock 7))),
                     ("device", JVal.s (modelDevice env))])]
          metrics := { requests := m.requests + 1, errors := m.errors
                       audioObs := m.audioObs ++ [env.clock 2 - env.clock 1]
                       procObs := m.procObs ++ [env.clock 4 - env.clock 3]
                       inferObs := m.inferObs ++ [env.clock 6 - env.clock 5]
                       decodeObs := m.decodeObs ++ [env.clock 8 - env.clock 7]
                       totalObs := m.totalObs ++ [env.clock 9 - env.clock 0] }
          tempFileExists := false })
    ∧ (∀ u, env.unlink_res 0 = some u →
      (transcribe env m).resp = [("error", JVal.s ("Transcription failed: " ++ u))]
      ∧ (transcribe env m).metrics.errors = m.errors + 1
      ∧ (transcribe env m).metrics.requests = m.requests + 1
      ∧ (transcribe env m).metrics.totalObs = m.totalObs ++ [env.clock 9 - env.clock 0]
      ∧ (transcribe env m).tempFileExists = (env.unlink_res 1).isSome) := by
  unfold transcribe
  simp only [hready, Bool.false_eq_true, if_false, hr, hw, ha, hp, hg, hd, List.head?_cons]
  constructor
  · intro hu
    rw [hu]
  · intro u hu
    rw [hu]
    refine ⟨rfl, rfl, rfl, rfl, ?_⟩
    unfold exceptBlock
    cases h1 : env.unlink_res 1 <;> rfl

/-- Readiness rejection: when the model is not loaded the handler returns
the fixed payload untouched state. -/
theorem transcribe_notReady (env : ReqEnv) (m : Metrics)
    (h : (!env.model_loaded || env.whisper_model.isNone || !env.processor_set) = true) :
    transcribe env m =
      { resp := [("error", JVal.s "Whisper model not loaded")]
        metrics := m, tempFileExists := false } := by
  unfold transcribe
  rw [h]
  rfl

/-- When no step of 3-7 fails, each step's successful outcome can be named. -/
theorem firstFailure_none_elim (env : ReqEnv) (h : firstFailure env = none) :
    ∃ content a inputs ids t rest,
      env.read_upload = .ok content
      ∧ env.write_temp content = .ok ()
      ∧ load_audio_file env.audio = .ok a
      ∧ env.run_processor a = .ok inputs
      ∧ env.generate (moveInputs (modelDevice env) inputs) = .ok ids
      ∧ env.batch_decode ids = .ok (t :: rest) := by
  unfold firstFailure at h
  cases hr : env.read_upload with
  | error e1 => rw [hr] at h; simp at h
  | ok content =>
  rw [hr] at h
  dsimp only at h
  cases hw : env.write_temp content with
  | error e2 => rw [hw] at h; simp at h
  | ok u =>
  cases u
  rw [hw] at h
  dsimp only at h
  cases ha : load_audio_file env.audio with
  | error e3 => rw [ha] at h; simp at h
  | ok audio =>
  rw [ha] at h
  dsimp only at h
  cases hp : env.run_processor audio with
  | error e4 => rw [hp] at h; simp at h
  | ok inputs =>
  rw [hp] at h
  dsimp only at h
  cases hg : env.generate (moveInputs (modelDevice env) inputs) with
  | error e5 => rw [hg] at h; simp at h
  | ok predicted_ids =>
  rw [hg] at h
  dsimp only at h
  cases hd : env.batch_decode predicted_ids with
  | error e6 => rw [hd] at h; simp at h
  | ok decoded =>
  rw [hd] at h
  dsimp only at h
  cases decoded with
  | nil => simp at h
  | cons t rest =>
    exact ⟨content, audio, inputs, predicted_ids, t, rest, rfl, hw, rfl, hp, hg, hd⟩

/-! ### The claims -/

/-- C1: every response of `POST /transcribe/` carries either a
`transcription` string field (together with a `metrics` sub-object) or an
`error` string field — never both fields and never neither, whatever the
model state and whichever step fails. -/
theorem c1_response_transcription_xor_error (env : ReqEnv) (m : Metrics) :
    Bool.xor (hasFieldB (transcribe env m).resp "transcription")
        (hasFieldB (transcribe env m).resp "error") = true
    ∧ ((∃ t fields, (transcribe env m).resp =
          [("transcription", JVal.s t), ("metrics", JVal.obj fields)])
       ∨ (∃ msg, (transcribe env m).resp = [("error", JVal.s msg)])) := by
  by_cases hg : (!env.model_loaded || env.whisper_model.isNone || !env.processor_set) = true
  · rw [transcribe_notReady env m hg]
    exact ⟨rfl, .inr ⟨_, rfl⟩⟩
  · have hg' := eq_false_of_ne_true hg
    cases hf : firstFailure env with
    | some e =>
      rw [(transcribe_onFailure env m e hg' hf).1]
      exact ⟨rfl, .inr ⟨_, rfl⟩⟩
    | none =>
      obtain ⟨content, a, inputs, ids, t, rest, hr, hw, ha, hp, hgen, hd⟩ :=
        firstFailure_none_elim env hf
      have hs := transcribe_onSuccess env m content a inputs ids t rest hg' hr hw ha hp hgen hd
      cases hu : env.unlink_res 0 with
      | none =>
        rw [hs.1 hu]
        exact ⟨rfl, .inl ⟨_, _, rfl⟩⟩
      | some u =>
        rw [(hs.2 u hu).1]
        exact ⟨rfl, .inr ⟨_, rfl⟩⟩

/-- C2, counterexample: with the model ready, a failure while reading the
upload bytes reaches the `except` block with `temp_file_path = None`, so the
temporary file created by `NamedTemporaryFile(delete=False)` is NOT deleted:
the handler returns the error payload with the file still on disk. -/
theorem c2_counterexample_read_failure_leaks :
    (transcribe envReadFail zeroMetrics).tempFileExists = true
    ∧ (transcribe envReadFail zeroMetrics).resp =
        [("error", JVal.s ("Transcription failed: " ++ "connection reset"))] :=
  ⟨rfl, rfl⟩

/-- C2, amended: once the upload was read and written to the temporary file
(`temp_file_path` assigned) and deletion itself succeeds, the temporary file
is gone on every exit path — success, decode failure, processing failure,
inference failure, token-decode failure. -/
theorem c2_cleanup_after_write (env : ReqEnv) (m : Metrics) (content : List Nat)
    (hr : env.read_upload = .ok content)
    (hw : env.write_temp content = .ok ())
    (hu : ∀ k, env.unlink_res k = none) :
    (transcribe env m).tempFileExists = false := by
  by_cases hg : (!env.model_loaded || env.whisper_model.isNone || !env.processor_set) = true
  · rw [transcribe_notReady env m hg]
  · have hg' := eq_false_of_ne_true hg
    unfold transcribe
    simp only [hg', Bool.false_eq_true, if_false, hr, hw]
    cases ha : load_audio_file env.audio with
    | error e => simp [exceptBlock, hu 0]
    | ok audio =>
    dsimp only
    cases hp : env.run_processor audio with
    | error e => simp [exceptBlock, hu 0]
    | ok inputs =>
    dsimp only
    cases hgen : env.generate (moveInputs (modelDevice env) inputs) with
    | error e => simp [exceptBlock, hu 0]
    | ok predicted_ids =>
    dsimp only
    cases hd : env.batch_decode predicted_ids with
    | error e => simp [exceptBlock, hu 0]
    | ok decoded =>
    dsimp only
    cases decoded with
    | nil => simp [exceptBlock, hu 0]
    | cons t rest =>
    simp only [List.head?_cons, hu 0]

/-- C2, witness: when both audio decoders fail after a successful write,
the temporary file is still removed. -/
theorem c2_cleanup_after_write_witness :
    (transcribe envAudioFail zeroMetrics).tempFileExists = false :=
  c2_cleanup_after_write envAudioFail zeroMetrics [1, 2, 3] rfl rfl (fun _ => rfl)

/-- C3, counterexample: when every step succeeds but the success-path
`os.unlink` (line 163, inside the `try`) raises, the exception reaches the
outer handler: the error counter is incremented and the response is the
unlink error, not the success payload — the deletion failure is not
swallowed there. -/
theorem c3_counterexample_unlink_not_swallowed :
    (transcribe envUnlinkFail zeroMetrics).metrics.errors = 1
    ∧ (transcribe envUnlinkFail zeroMetrics).resp =
        [("error", JVal.s ("Transcription failed: " ++ "permission denied"))] :=
  ⟨rfl, rfl⟩

/-- C3, amended: on the error path a deletion failure is swallowed — the
response still carries the original step's message and the error counter is
incremented exactly once — but on the success path a deletion failure is
caught by the outer handler, which increments the error counter and turns
the response into the unlink error payload. -/
theorem c3_unlink_failure_behavior (env : ReqEnv) (m : Metrics) (u : String)
    (hready : (!env.model_loaded || env.whisper_model.isNone || !env.processor_set) = false)
    (hu : env.unlink_res 0 = some u) :
    (∀ e, firstFailure env = some e →
      (transcribe env m).resp = [("error", JVal.s ("Transcription failed: " ++ e))]
      ∧ (transcribe env m).metrics.errors = m.errors + 1)
    ∧ (firstFailure env = none →
      (transcribe env m).resp = [("error", JVal.s ("Transcription failed: " ++ u))]
      ∧ (transcribe env m).metrics.errors = m.errors + 1) := by
  constructor
  · intro e hf
    exact ⟨(transcribe_onFailure env m e hready hf).1,
           (transcribe_onFailure env m e hready hf).2.1⟩
  · intro hf
    obtain ⟨content, a, inputs, ids, t, rest, hr, hw, ha, hp, hgen, hd⟩ :=
      firstFailure_none_elim env hf
    have hs := (transcribe_onSuccess env m content a inputs ids t rest
      hready hr hw ha hp hgen hd).2 u hu
    exact ⟨hs.1, hs.2.1⟩

/-- C3, witness: at the concrete all-successful environment whose unlink
always raises, the amended success-path clause applies. -/
theorem c3_unlink_failure_behavior_witness :
    (transcribe envUnlinkFail zeroMetrics).resp =
      [("error", JVal.s ("Transcription failed: " ++ "permission denied"))]
    ∧ (transcribe envUnlinkFail zeroMetrics).metrics.errors = zeroMetrics.errors + 1 :=
  (c3_unlink_failure_behavior envUnlinkFail zeroMetrics "permission denied" rfl rfl).2 rfl

/-- C4: a request refused by the readiness check returns exactly
`{"error": "Whisper model not loaded"}` with all metric state untouched
(neither the request counter nor the error counter moves); a request that
passes the readiness check increments the request counter exactly once, on
every subsequent path. -/
theorem c4_readiness_gate (env : ReqEnv) (m : Metrics) :
    ((!env.model_loaded || env.whisper_model.isNone || !env.processor_set) = true →
      transcribe env m =
        { resp := [("error", JVal.s "Whisper model not loaded")]
          metrics := m, tempFileExists := false })
    ∧ ((!env.model_loaded || env.whisper_model.isNone || !env.processor_set) = false →
      (transcribe env m).metrics.requests = m.requests + 1) := by
  constructor
  · exact transcribe_notReady env m
  · intro hready
    cases hf : firstFailure env with
    | some e => exact (transcribe_onFailure env m e hready hf).2.2.1
    | none =>
      obtain ⟨content, a, inputs, ids, t, rest, hr, hw, ha, hp, hgen, hd⟩ :=
        firstFailure_none_elim env hf
      have hs := transcribe_onSuccess env m content a inputs ids t rest
        hready hr hw ha hp hgen hd
      cases hu : env.unlink_res 0 with
      | none => rw [hs.1 hu]
      | some u => exact (hs.2 u hu).2.2.1

/-- C4, witness: the not-ready environment is rejected with untouched
metrics; the ready environment's request counter moves to 1. -/
theorem c4_readiness_gate_witness :
    transcribe envNotReady zeroMetrics =
      { resp := [("error", JVal.s "Whisper model not loaded")]
        metrics := zeroMetrics, tempFileExists := false }
    ∧ (transcribe baseEnv zeroMetrics).metrics.requests = 1 :=
  ⟨(c4_readiness_gate envNotReady zeroMetrics).1 rfl,
   (c4_readiness_gate baseEnv zeroMetrics).2 rfl⟩

/-- C5: the Audio Loader first attempts the primary (torchaudio) decode —
averaging multi-channel audio to mono and resampling when the source rate
is not 16000 Hz, in that order —, falls back to the librosa decoder on any
primary failure, and propagates a fallback failure to the caller. -/
theorem c5_audio_loader (env : AudioEnv) :
    (∀ c, env.torchaudio_load = .ok ([c], 16000) →
      load_audio_file env = .ok c)
    ∧ (∀ chans, env.torchaudio_load = .ok (chans, 16000) → chans.length > 1 →
      load_audio_file env = .ok (meanChannels chans))
    ∧ (∀ c sr, env.torchaudio_load = .ok ([c], sr) → sr ≠ 16000 →
      load_audio_file env = .ok (env.resample sr c))
    ∧ (∀ chans sr, env.torchaudio_load = .ok (chans, sr) → chans.length > 1 → sr ≠ 16000 →
      load_audio_file env = .ok (env.resample sr (meanChannels chans)))
    ∧ (∀ e, env.torchaudio_load = .error e → load_audio_file env = env.librosa_load)
    ∧ (∀ e e2, env.torchaudio_load = .error e → env.librosa_load = .error e2 →
      load_audio_file env = .error e2) := by
  refine ⟨?_, ?_, ?_, ?_, ?_, ?_⟩
  · intro c h
    unfold load_audio_file
    rw [h]
    simp
  · intro chans h hlen
    unfold load_audio_file
    rw [h]
    dsimp only
    rw [if_neg (by simp : ¬((16000 : ℕ) ≠ 16000)), if_pos hlen]
    rfl
  · intro c sr h hsr
    unfold load_audio_file
    rw [h]
    dsimp only
    rw [if_pos hsr, if_neg (by simp : ¬([c].length > 1))]
    rfl
  · intro chans sr h hlen hsr
    unfold load_audio_file
    rw [h]
    dsimp only
    rw [if_pos hsr, if_pos hlen]
    rfl
  · intro e h
    unfold load_audio_file
    rw [h]
  · intro e e2 h h2
    unfold load_audio_file
    rw [h, h2]

/-- C5, witness: the all-successful audio environment decodes through the
primary path. -/
theorem c5_audio_loader_witness : load_audio_file okAudio = .ok [1, 2, 3] :=
  (c5_audio_loader okAudio).1 [1, 2, 3] rfl

/-- C6: whenever the readiness check passed and one of steps 3-7 raised
with message `e`, the handler increments the error counter exactly once and
returns `{"error": "Transcription failed: <e>"}`. -/
theorem c6_failure_payload (env : ReqEnv) (m : Metrics) (e : String)
    (hready : (!env.model_loaded || env.whisper_model.isNone || !env.processor_set) = false)
    (hfail : firstFailure env = some e) :
    (transcribe env m).metrics.errors = m.errors + 1
    ∧ (transcribe env m).resp = [("error", JVal.s ("Transcription failed: " ++ e))] :=
  ⟨(transcribe_onFailure env m e hready hfail).2.1,
   (transcribe_onFailure env m e hready hfail).1⟩

/-- C6, witness: the environment whose upload read raises. -/
theorem c6_failure_payload_witness :
    (transcribe envReadFail zeroMetrics).metrics.errors = zeroMetrics.errors + 1
    ∧ (transcribe envReadFail zeroMetrics).resp =
        [("error", JVal.s ("Transcription failed: " ++ "connection reset"))] :=
  c6_failure_payload envReadFail zeroMetrics "connection reset" rfl rfl

/-- C7: on a fully successful transcription the response is the stripped
transcription text plus a metrics sub-object holding exactly the five
durations, each rounded to two decimals, and the device string. -/
theorem c7_success_payload (env : ReqEnv) (m : Metrics)
    (content : List Nat) (a : List ℚ) (inputs : Inputs) (ids : List Int)
    (t : String) (rest : List String)
    (hready : (!env.model_loaded || env.whisper_model.isNone || !env.processor_set) = false)
    (hr : env.read_upload = .ok content)
    (hw : env.write_temp content = .ok ())
    (ha : load_audio_file env.audio = .ok a)
    (hp : env.run_processor a = .ok inputs)
    (hg : env.generate (moveInputs (modelDevice env) inputs) = .ok ids)
    (hd : env.batch_decode ids = .ok (t :: rest))
    (hu : env.unlink_res 0 = none) :
    (transcribe env m).resp =
      [("transcription", JVal.s (pyStrip t)),
       ("metrics", JVal.obj [
         ("total_time", JVal.num (round2 (env.clock 9 - env.clock 0))),
         ("audio_load_time", JVal.num (round2 (env.clock 2 - env.clock 1))),
         ("processing_time", JVal.num (round2 (env.clock 4 - env.clock 3))),
         ("inference_time", JVal.num (round2 (env.clock 6 - env.clock 5))),
         ("decode_time", JVal.num (round2 (env.clock 8 - env.clock 7))),
         ("device", JVal.s (modelDevice env))])] := by
  rw [(transcribe_onSuccess env m content a inputs ids t rest
    hready hr hw ha hp hg hd).1 hu]

/-- C7, witness: at the all-successful environment. -/
theorem c7_success_payload_witness :
    (transcribe baseEnv zeroMetrics).resp =
      [("transcription", JVal.s (pyStrip " hello world ")),
       ("metrics", JVal.obj [
         ("total_time", JVal.num (round2 (baseEnv.clock 9 - baseEnv.clock 0))),
         ("audio_load_time", JVal.num (round2 (baseEnv.clock 2 - baseEnv.clock 1))),
         ("processing_time", JVal.num (round2 (baseEnv.clock 4 - baseEnv.clock 3))),
         ("inference_time", JVal.num (round2 (baseEnv.clock 6 - baseEnv.clock 5))),
         ("decode_time", JVal.num (round2 (baseEnv.clock 8 - baseEnv.clock 7))),
         ("device", JVal.s (modelDevice baseEnv))])] :=
  c7_success_payload baseEnv zeroMetrics [1, 2, 3] [1, 2, 3]
    [("input_features", { payload := 9, device := "cpu" })] [42, 43]
    " hello world " [] rfl rfl rfl rfl rfl rfl rfl rfl

/-- C8: `load_whisper_model` is total over every outcome of its external
calls (the `try/except` swallows all of them): it either returns `False`
with the gauge at 0, or returns `True` with the gauge at 1; when every call
succeeds the weights end on `"cuda"` exactly when the accelerator is
available, else `"cpu"`; and on any underlying failure it returns `False`
with the gauge at 0. -/
theorem c8_model_load (env : LoadEnv) :
    (((load_whisper_model env).ret = false ∧ (load_whisper_model env).gauge = 0)
      ∨ ((load_whisper_model env).ret = true ∧ (load_whisper_model env).gauge = 1))
    ∧ (env.fetch_processor = .ok () → env.fetch_model = .ok () → env.move_to_device = .ok () →
      load_whisper_model env =
        { ret := true, gauge := 1
          whisper_model := some
            { device := if env.cuda_available then "cuda" else "cpu"
              dtype := if env.cuda_available then "float16" else "float32" }
          processor_set := true })
    ∧ (((∃ e, env.fetch_processor = .error e) ∨ (∃ e, env.fetch_model = .error e)
        ∨ (∃ e, env.move_to_device = .error e)) →
      (load_whisper_model env).ret = false ∧ (load_whisper_model env).gauge = 0) := by
  unfold load_whisper_model
  cases hp : env.fetch_processor with
  | error e =>
    refine ⟨.inl ⟨rfl, rfl⟩, ?_, fun _ => ⟨rfl, rfl⟩⟩
    intro h1 _ _
    exact absurd h1 (by simp)
  | ok u =>
  cases u
  dsimp only
  cases hm : env.fetch_model with
  | error e =>
    refine ⟨.inl ⟨rfl, rfl⟩, ?_, fun _ => ⟨rfl, rfl⟩⟩
    intro _ h2 _
    exact absurd h2 (by simp)
  | ok u2 =>
  cases u2
  dsimp only
  cases hd : env.move_to_device with
  | error e =>
    refine ⟨.inl ⟨rfl, rfl⟩, ?_, fun _ => ⟨rfl, rfl⟩⟩
    intro _ _ h3
    exact absurd h3 (by simp)
  | ok u3 =>
  cases u3
  dsimp only
  refine ⟨.inr ⟨rfl, rfl⟩, fun _ _ _ => rfl, ?_⟩
  rintro (⟨e, he⟩ | ⟨e, he⟩ | ⟨e, he⟩) <;> exact absurd he (by simp)

/-- C8, witness: the all-successful CUDA startup environment. -/
theorem c8_model_load_witness :
    load_whisper_model loadEnvOk =
      { ret := true, gauge := 1
        whisper_model := some { device := "cuda", dtype := "float16" }
        processor_set := true } :=
  (c8_model_load loadEnvOk).2.1 rfl rfl rfl

/-- C9: the total-duration histogram is observed exactly when steps 3-7 all
succeeded: a failure in steps 3-7 leaves it unchanged even though the
per-stage histograms of the stages completed before the failure (here: the
audio-load histogram when the feature processor is the step that raises)
were observed. -/
theorem c9_total_histogram (env : ReqEnv) (m : Metrics)
    (hready : (!env.model_loaded || env.whisper_model.isNone || !env.processor_set) = false) :
    (∀ e, firstFailure env = some e →
      (transcribe env m).metrics.totalObs = m.totalObs)
    ∧ (firstFailure env = none →
      (transcribe env m).metrics.totalObs = m.totalObs ++ [env.clock 9 - env.clock 0])
    ∧ (∀ content a e, env.read_upload = .ok content → env.write_temp content = .ok () →
      load_audio_file env.audio = .ok a → env.run_processor a = .error e →
      (transcribe env m).metrics.audioObs = m.audioObs ++ [env.clock 2 - env.clock 1]
      ∧ (transcribe env m).metrics.totalObs = m.totalObs) := by
  refine ⟨fun e hf => (transcribe_onFailure env m e hready hf).2.2.2, ?_, ?_⟩
  · intro hf
    obtain ⟨content, a, inputs, ids, t, rest, hr, hw, ha, hp, hgen, hd⟩ :=
      firstFailure_none_elim env hf
    have hs := transcribe_onSuccess env m content a inputs ids t rest
      hready hr hw ha hp hgen hd
    cases hu : env.unlink_res 0 with
    | none => rw [hs.1 hu]
    | some u => exact (hs.2 u hu).2.2.2.1
  · intro content a e hr hw ha hp
    unfold transcribe
    simp only [hready, Bool.false_eq_true, if_false, hr, hw, ha, hp]
    exact ⟨rfl, rfl⟩

/-- C9, witness: at the environment whose feature processor raises, the
total histogram is untouched while the audio-load histogram was observed. -/
theorem c9_total_histogram_witness :
    (transcribe envProcFail zeroMetrics).metrics.totalObs = zeroMetrics.totalObs
    ∧ (transcribe envProcFail zeroMetrics).metrics.audioObs =
        zeroMetrics.audioObs ++ [envProcFail.clock 2 - envProcFail.clock 1] := by
  have h := c9_total_histogram envProcFail zeroMetrics rfl
  have h3 := h.2.2 [1, 2, 3] [1, 2, 3] "processor oom" rfl rfl rfl rfl
  exact ⟨h3.2, h3.1⟩

/-- C10, counterexample: the claim's "the suffix is `.wav` exactly when the
filename splits to an empty extension" fails on `"a.wav"`: its extension is
`".wav"`, which is nonempty, yet the suffix used is `".wav"`. -/
theorem c10_counterexample_wav_extension :
    ¬ (fileExtension (some "a.wav") = ".wav" ↔ pySplitextExt "a.wav" = "") := by
  decide

/-- C10, amended: a missing filename, an empty filename, and a filename
whose `splitext` extension is empty all default the suffix to `".wav"`;
otherwise the suffix is the `splitext` extension itself — which can also be
`".wav"`, so suffix `".wav"` does not imply an empty extension. -/
theorem c10_suffix_default (f : String) :
    fileExtension none = ".wav"
    ∧ fileExtension (some "") = ".wav"
    ∧ (pySplitextExt f = "" → fileExtension (some f) = ".wav")
    ∧ (pySplitextExt f ≠ "" → f ≠ "" → fileExtension (some f) = pySplitextExt f) := by
  refine ⟨by decide, by decide, ?_, ?_⟩
  · intro h
    by_cases hf : f = ""
    · subst hf; decide
    · unfold fileExtension
      simp [hf, h]
  · intro h hf
    unfold fileExtension
    simp [hf, h]

/-- C10, witness: an extensionless filename gets the `.wav` default. -/
theorem c10_suffix_default_witness : fileExtension (some "clip") = ".wav" :=
  (c10_suffix_default "clip").2.2.1 rfl

example : pySplitextExt "a.wav" = ".wav" := by decide
example : pySplitextExt "audio" = "" := by decide
example : pySplitextExt ".bashrc" = "" := by decide
example : pySplitextExt "dir.d/file" = "" := by decide
example : pySplitextExt "a.tar.gz" = ".gz" := by decide
example : fileExtension (some "a.") = "." := by decide
example : fileExtension none = ".wav" := by decide
example : roundHalfEven (Rat.mk' 1 3) = 0 := by decide
example : roundHalfEven (Rat.mk' 5 2) = 2 := by decide
example : roundHalfEven (Rat.mk' 7 2) = 4 := by decide
example : roundHalfEven (Rat.mk' (-3) 2) = -2 := by decide
example : pyStrip "  hi there\n" = "hi there" := by decide

end FastAPIWhisper
